import Mathlib

/-!
Verification of the sshit SSH control-socket lifecycle manager.

Each operation of the repository is embedded shallowly: the external
effects (spawning the ssh client, stat-ing the socket file, unlinking it)
are passed in as explicit values (the captured `ShellResult`, a Boolean
for file existence, the unlink outcome), and every `run` method becomes a
pure Lean function from those inputs to the operation's typed outcome.
-/

set_option maxRecDepth 4096

/-- Prefix test on character lists: true when the first list is an initial
segment of the second. -/
def charsStartWith : List Char → List Char → Bool
  | [], _ => true
  | _ :: _, [] => false
  | p :: ps, c :: cs => p == c && charsStartWith ps cs

/-- Substring test on character lists: true when the second list occurs
contiguously inside the first. -/
def charsContain : List Char → List Char → Bool
  | [], pat => pat.isEmpty
  | c :: rest, pat => charsStartWith pat (c :: rest) || charsContain rest pat

/-- JavaScript `hay.includes(pat)` as used by every stderr classifier in the
repository. -/
def strIncludes (hay pat : String) : Bool :=
  charsContain hay.toList pat.toList

/-- Generic outcome of an Op's `run`: either a success value or a typed
failure together with a free-text diagnostic payload (`debugData`). -/
inductive OpOutcome (α : Type) (φ : Type) where
  | succeed (value : α)
  | fail (failure : φ) (debugData : String)
deriving DecidableEq

/-- Result of `runCommand` in `src/sshit-internals.ts`: exit code plus
captured stdout/stderr as text. -/
structure ShellResult where
  exitCode : Int
  stdout : String
  stderr : String
deriving DecidableEq

/-- Result of `runCommandBuffers`: exit code plus raw output bytes. -/
structure ShellResultBuffers where
  exitCode : Int
  stdoutBuffer : List Nat
  stderrBuffer : List Nat
deriving DecidableEq

/-- Events the spawned child process can deliver: a `close` with a possibly
null exit code and the accumulated output chunks, or a spawn `error`. -/
inductive SpawnEvent where
  | close (code : Option Int) (stdoutChunks stderrChunks : List (List Nat))
  | spawnError (message : String)

/-- UTF-8 bytes of a string, modelling `Buffer.from(message)`. -/
def encodeUtf8 (s : String) : List Nat :=
  s.toUTF8.toList.map (fun b => b.toNat)

/-- Translation of `runCommand` (src/sshit-internals.ts): resolves on
`close` with `code ?? 1` and the concatenated chunks decoded to text, and
on spawn `error` with exit code 1, empty stdout and the error message as
stderr.  `decode` stands for `Buffer.toString()`. -/
def runCommand (decode : List Nat → String) : SpawnEvent → ShellResult
  | .close code outChunks errChunks =>
      { exitCode := code.getD 1
        stdout := decode outChunks.flatten
        stderr := decode errChunks.flatten }
  | .spawnError message => { exitCode := 1, stdout := "", stderr := message }

/-- Translation of `runCommandBuffers` (src/sshit-internals.ts): same event
handling as `runCommand` but keeping the raw bytes. -/
def runCommandBuffers : SpawnEvent → ShellResultBuffers
  | .close code outChunks errChunks =>
      { exitCode := code.getD 1
        stdoutBuffer := outChunks.flatten
        stderrBuffer := errChunks.flatten }
  | .spawnError message =>
      { exitCode := 1, stdoutBuffer := [], stderrBuffer := encodeUtf8 message }

/-- Information about a created SSH control socket. -/
structure SocketInfo where
  path : String
  host : String
  createdAt : String
deriving DecidableEq

/-- Failure taxonomy of SSHCreateSocketOp. -/
inductive SSHCreateSocketFailure where
  | AuthenticationFailed
  | HostNotFound
  | HostKeyVerificationFailed
  | ConnectionRefused
  | PermissionDenied
  | Timeout
  | UnknownError
deriving DecidableEq

/-- Constructor state of SSHCreateSocketOp. -/
structure SSHCreateSocketOp where
  host : String
  socketPath : Option String := none
  connectTimeout : Int := 10
  serverAliveInterval : Int := 30
deriving DecidableEq

/-- JavaScript truthiness of a `string | undefined` value: false for
`undefined` and for the empty string. -/
def jsTruthy : Option String → Bool
  | none => false
  | some s => decide (s ≠ "")

/-- Characters kept by the sanitizer's final strip: the class
[A-Za-z0-9-]. -/
def allowedChar (c : Char) : Bool :=
  c.isAlpha || c.isDigit || c == '-'

/-- Global single-character replacement, modelling `.replace(/x/g, '-')`
for a one-character pattern. -/
def replaceAllChar (s : List Char) (a b : Char) : List Char :=
  s.map (fun c => if c == a then b else c)

/-- Host sanitization in `SSHCreateSocketOp.#getSocketPath`: replace every
`@`, `.`, `:` with `-`, then strip everything outside [A-Za-z0-9-]. -/
def sanitizeHost (host : String) : String :=
  String.mk
    ((replaceAllChar (replaceAllChar (replaceAllChar host.toList '@' '-') '.' '-') ':' '-').filter
      allowedChar)

/-- Translation of `SSHCreateSocketOp.#getSocketPath`: an explicitly
supplied socket path wins when truthy, else the path is derived from the
host. -/
def SSHCreateSocketOp.getSocketPath (op : SSHCreateSocketOp) : String :=
  if jsTruthy op.socketPath then op.socketPath.getD ""
  else "/tmp/sshit-ctrl-" ++ sanitizeHost op.host

/-- Translation of the body of `SSHCreateSocketOp.run`
(src/SSHCreateSocketOp.ts, lines 94-139), as a function of the captured
ssh invocation result; `now` stands for `new Date().toISOString()`. -/
def SSHCreateSocketOp.run (op : SSHCreateSocketOp) (result : ShellResult) (now : String) :
    OpOutcome SocketInfo SSHCreateSocketFailure :=
  if result.exitCode = 0 then
    .succeed { path := op.getSocketPath, host := op.host, createdAt := now }
  else
    if strIncludes result.stderr "Permission denied (publickey" then
      .fail .PermissionDenied result.stderr
    else if strIncludes result.stderr "Permission denied" || strIncludes result.stderr "Authentication failed" then
      .fail .AuthenticationFailed result.stderr
    else if strIncludes result.stderr "REMOTE HOST IDENTIFICATION HAS CHANGED"
        || strIncludes result.stderr "Host key verification failed" then
      .fail .HostKeyVerificationFailed result.stderr
    else if strIncludes result.stderr "Could not resolve hostname"
        || strIncludes result.stderr "Name or service not known" then
      .fail .HostNotFound result.stderr
    else if strIncludes result.stderr "Connection refused"
        || strIncludes result.stderr "Network is unreachable"
        || strIncludes result.stderr "No route to host"
        || strIncludes result.stderr "Broken pipe" then
      .fail .ConnectionRefused result.stderr
    else if strIncludes result.stderr "Operation timed out" || strIncludes result.stderr "Connection timed out" then
      .fail .Timeout result.stderr
    else
      .fail .UnknownError ("Exit code " ++ toString result.exitCode ++ ": " ++ result.stderr)

/-- The same classification as an explicit ordered table: each entry is a
set of alternative substrings together with the failure kind it selects. -/
def createClassifierTable : List (List String × SSHCreateSocketFailure) :=
  [ (["Permission denied (publickey"], .PermissionDenied),
    (["Permission denied", "Authentication failed"], .AuthenticationFailed),
    (["REMOTE HOST IDENTIFICATION HAS CHANGED", "Host key verification failed"],
      .HostKeyVerificationFailed),
    (["Could not resolve hostname", "Name or service not known"], .HostNotFound),
    (["Connection refused", "Network is unreachable", "No route to host", "Broken pipe"],
      .ConnectionRefused),
    (["Operation timed out", "Connection timed out"], .Timeout) ]

/-- A table entry matches when any of its alternative substrings occurs in
the stderr text. -/
def entryMatches (stderr : String) (pats : List String) : Bool :=
  pats.any (strIncludes stderr)

/-- First-match-wins evaluation of an ordered classifier table. -/
def firstMatch {κ : Type} (stderr : String) : List (List String × κ) → Option κ
  | [] => none
  | e :: rest => if entryMatches stderr e.1 then some e.2 else firstMatch stderr rest

/-- Status of an SSH control socket, a value rather than a failure. -/
inductive SocketStatus where
  | alive
  | dead
deriving DecidableEq

/-- Failure taxonomy of SSHCheckSocketOp. -/
inductive SSHCheckSocketFailure where
  | SocketNotFound
  | UnknownError
deriving DecidableEq

/-- Translation of `SSHCheckSocketOp.run` (src/main.ts related doc):
`sockExists` is the outcome of the `stat` call made before ssh is invoked,
`result` the outcome of `ssh -O check`. -/
def SSHCheckSocketOp.run (socketPath : String) (sockExists : Bool) (result : ShellResult) :
    OpOutcome SocketStatus SSHCheckSocketFailure :=
  if sockExists = false then
    .fail .SocketNotFound ("Control socket does not exist: " ++ socketPath)
  else if result.exitCode = 0 then .succeed .alive
  else .succeed .dead

/-- Failure taxonomy of SSHExitSocketOp. -/
inductive SSHExitSocketFailure where
  | SocketNotFound
  | UnknownError
deriving DecidableEq

/-- Translation of `SSHExitSocketOp.run`: check the file exists, then run
`ssh -O exit` and report `exitedCleanly` as a success value. -/
def SSHExitSocketOp.run (socketPath : String) (sockExists : Bool) (result : ShellResult) :
    OpOutcome Bool SSHExitSocketFailure :=
  if sockExists = false then
    .fail .SocketNotFound ("Control socket does not exist: " ++ socketPath)
  else .succeed (decide (result.exitCode = 0))

/-- Failure taxonomy of SSHExecOp. -/
inductive SSHExecFailure where
  | SocketNotFound
  | SocketDead
  | ConnectionFailed
  | Timeout
  | UnknownError
deriving DecidableEq

/-- Result of executing a remote command: the remote exit code plus output
as text and as raw bytes. -/
structure ExecResult where
  exitCode : Int
  stdout : String
  stderr : String
  stdoutBuffer : List Nat
  stderrBuffer : List Nat
deriving DecidableEq

/-- Translation of `SSHExecOp.run` (src/SSHExecOp.ts, lines 77-150):
`decode` stands for `Buffer.toString('utf-8')`, `sockExists` for the
guarding `stat` call, `result` for the captured ssh invocation. -/
def SSHExecOp.run (decode : List Nat → String) (socketPath : String) (sockExists : Bool)
    (result : ShellResultBuffers) : OpOutcome ExecResult SSHExecFailure :=
  if sockExists = false then
    .fail .SocketNotFound ("Control socket does not exist: " ++ socketPath)
  else
    if result.exitCode = 255 then
      if strIncludes (decode result.stderrBuffer) "No such file" || strIncludes (decode result.stderrBuffer) "no such file" then
        .fail .SocketNotFound (decode result.stderrBuffer)
      else if strIncludes (decode result.stderrBuffer) "Connection refused" || strIncludes (decode result.stderrBuffer) "Connection reset" then
        .fail .ConnectionFailed (decode result.stderrBuffer)
      else if strIncludes (decode result.stderrBuffer) "Operation timed out" || strIncludes (decode result.stderrBuffer) "Connection timed out" then
        .fail .Timeout (decode result.stderrBuffer)
      else if strIncludes (decode result.stderrBuffer) "Control socket" && strIncludes (decode result.stderrBuffer) "dead" then
        .fail .SocketDead (decode result.stderrBuffer)
      else
        .fail .ConnectionFailed ("Exit 255: " ++ decode result.stderrBuffer)
    else
      .succeed
        { exitCode := result.exitCode
          stdout := decode result.stdoutBuffer
          stderr := decode result.stderrBuffer
          stdoutBuffer := result.stdoutBuffer
          stderrBuffer := result.stderrBuffer }

/-- Disjunction of every substring predicate of the exit-255 classifier in
`SSHExecOp.run`. -/
def execPatternMatches (stderr : String) : Bool :=
  strIncludes stderr "No such file" || strIncludes stderr "no such file"
    || strIncludes stderr "Connection refused" || strIncludes stderr "Connection reset"
    || strIncludes stderr "Operation timed out" || strIncludes stderr "Connection timed out"
    || (strIncludes stderr "Control socket" && strIncludes stderr "dead")

/-- Failure taxonomy of RemoveSocketFileOp. -/
inductive RemoveSocketFileFailure where
  | FileNotFound
  | PermissionDenied
  | UnknownError
deriving DecidableEq

/-- Outcome of the `unlink` system call: success, or an error with a code
such as ENOENT and a message. -/
inductive UnlinkResult where
  | ok
  | err (code : String) (message : String)

/-- Translation of `RemoveSocketFileOp.run`: map ENOENT to FileNotFound,
EACCES/EPERM to PermissionDenied, anything else to UnknownError. -/
def RemoveSocketFileOp.run (socketPath : String) (unlinkResult : UnlinkResult) :
    OpOutcome Bool RemoveSocketFileFailure :=
  match unlinkResult with
  | .ok => .succeed true
  | .err code message =>
      if code = "ENOENT" then .fail .FileNotFound ("File does not exist: " ++ socketPath)
      else if code = "EACCES" || code = "EPERM" then
        .fail .PermissionDenied ("Permission denied: " ++ socketPath)
      else .fail .UnknownError message

/-- Result of tearing down a socket. -/
structure TearDownResult where
  exitedCleanly : Bool
  fileRemoved : Bool
deriving DecidableEq

/-- Failure taxonomy of TearDownSocketOp. -/
inductive TearDownSocketFailure where
  | RemoveFailed
  | UnknownError
deriving DecidableEq

/-- Translation of `TearDownSocketOp.run` (src/SSHCreateSocketOp.ts related
doc, lines 499-542) as a function of the two sub-operation outcomes. -/
def TearDownSocketOp.run (exitOutcome : OpOutcome Bool SSHExitSocketFailure)
    (removeOutcome : OpOutcome Bool RemoveSocketFileFailure) :
    OpOutcome TearDownResult TearDownSocketFailure :=
  match exitOutcome with
  | .fail .SocketNotFound _ => .succeed { exitedCleanly := false, fileRemoved := false }
  | _ =>
    let exitedCleanly := match exitOutcome with
      | .succeed b => b
      | _ => false
    match removeOutcome with
    | .succeed _ => .succeed { exitedCleanly := exitedCleanly, fileRemoved := true }
    | .fail .FileNotFound _ => .succeed { exitedCleanly := exitedCleanly, fileRemoved := false }
    | .fail _ d => .fail .RemoveFailed d

/-- Status reported by ValidateSocketOp. -/
inductive VStatus where
  | alive
  | dead
  | notFound
deriving DecidableEq

/-- Result of validating a socket. -/
structure ValidationResult where
  valid : Bool
  status : VStatus
deriving DecidableEq

/-- Failure taxonomy of ValidateSocketOp. -/
inductive ValidateSocketFailure where
  | UnknownError
deriving DecidableEq

/-- Conversion of a Check status into a validation status. -/
def socketStatusToValidation : SocketStatus → VStatus
  | .alive => .alive
  | .dead => .dead

/-- Translation of `ValidateSocketOp.run` (src/AppState.ts related doc,
lines 69-99) as a function of the inner Check outcome. -/
def ValidateSocketOp.run (checkOutcome : OpOutcome SocketStatus SSHCheckSocketFailure) :
    OpOutcome ValidationResult ValidateSocketFailure :=
  match checkOutcome with
  | .fail .SocketNotFound _ => .succeed { valid := false, status := .notFound }
  | .fail .UnknownError d => .fail .UnknownError d
  | .succeed status =>
      .succeed { valid := decide (status = .alive), status := socketStatusToValidation status }

/-- C2: with no explicit socket path, the resolved control-socket path is
the fixed prefix followed by the sanitized host; sanitization keeps only
characters from [A-Za-z0-9-]; the documented example holds and the empty
host degenerates to the bare prefix. -/
theorem getSocketPath_default_spec (host : String) :
    SSHCreateSocketOp.getSocketPath { host := host } = "/tmp/sshit-ctrl-" ++ sanitizeHost host ∧
    (∀ c, c ∈ (sanitizeHost host).toList → allowedChar c = true) ∧
    SSHCreateSocketOp.getSocketPath { host := "user@10.0.0.3" } =
      "/tmp/sshit-ctrl-user-10-0-0-3" ∧
    SSHCreateSocketOp.getSocketPath { host := "" } = "/tmp/sshit-ctrl-" := by
  refine ⟨rfl, ?_, by decide, by decide⟩
  intro c hc
  exact List.of_mem_filter hc

/-- Closed instance of the C2 theorem at the documented example host. -/
theorem getSocketPath_default_spec_witness :
    SSHCreateSocketOp.getSocketPath { host := "user@10.0.0.3" } =
      "/tmp/sshit-ctrl-" ++ sanitizeHost "user@10.0.0.3" ∧
    allowedChar 'u' = true :=
  ⟨(getSocketPath_default_spec "user@10.0.0.3").1,
    (getSocketPath_default_spec "user@10.0.0.3").2.1 'u' (by decide)⟩

/-- C9: an explicitly supplied empty-string socket path is ignored (the
override is tested for truthiness), so the derived path is used; a
non-empty explicit path is used verbatim. -/
theorem getSocketPath_empty_override (host : String) :
    SSHCreateSocketOp.getSocketPath { host := host, socketPath := some "" } =
      "/tmp/sshit-ctrl-" ++ sanitizeHost host ∧
    (∀ p : String, p ≠ "" →
      SSHCreateSocketOp.getSocketPath { host := host, socketPath := some p } = p) := by
  constructor
  · rfl
  · intro p hp
    simp [SSHCreateSocketOp.getSocketPath, jsTruthy, hp]

/-- Closed instance of the C9 theorem: empty override at a concrete host,
and a concrete non-empty override taking effect. -/
theorem getSocketPath_empty_override_witness :
    SSHCreateSocketOp.getSocketPath { host := "user@10.0.0.3", socketPath := some "" } =
      "/tmp/sshit-ctrl-" ++ sanitizeHost "user@10.0.0.3" ∧
    SSHCreateSocketOp.getSocketPath { host := "user@10.0.0.3", socketPath := some "/tmp/x" } =
      "/tmp/x" :=
  ⟨(getSocketPath_empty_override "user@10.0.0.3").1,
    (getSocketPath_empty_override "user@10.0.0.3").2 "/tmp/x" (by decide)⟩

/-- Correctness of the Boolean prefix test. -/
theorem charsStartWith_iff (p l : List Char) : charsStartWith p l = true ↔ p <+: l := by
  induction p generalizing l with
  | nil => simp [charsStartWith]
  | cons a ps ih =>
    cases l with
    | nil => simp [charsStartWith]
    | cons c cs => simp [charsStartWith, ih, List.cons_prefix_cons]

/-- Correctness of the Boolean substring test. -/
theorem charsContain_iff (l p : List Char) : charsContain l p = true ↔ p <:+: l := by
  induction l with
  | nil => simp [charsContain, List.isEmpty_iff]
  | cons c rest ih => simp [charsContain, charsStartWith_iff, ih, List.infix_cons_iff]

/-- Substring containment is transitive through an intermediate string. -/
theorem strIncludes_trans {s p q : String} (h1 : strIncludes s p = true)
    (h2 : strIncludes p q = true) : strIncludes s q = true := by
  rw [strIncludes, charsContain_iff] at h1 h2 ⊢
  exact h2.trans h1

/-- The if-chain of Create's stderr classifier agrees with first-match-wins
evaluation of the explicit ordered table. -/
theorem create_run_classified (op : SSHCreateSocketOp) (res : ShellResult) (now : String)
    (hne : res.exitCode ≠ 0) :
    op.run res now =
      match firstMatch res.stderr createClassifierTable with
      | some k => .fail k res.stderr
      | none => .fail .UnknownError ("Exit code " ++ toString res.exitCode ++ ": " ++ res.stderr) := by
  simp only [SSHCreateSocketOp.run, createClassifierTable, firstMatch, entryMatches,
    List.any_cons, List.any_nil, Bool.or_false, Bool.or_assoc, if_neg hne]
  split_ifs <;> rfl

/-- C1: on a nonzero ssh exit, Create's failure kind is first-match-wins
evaluation of the ordered pattern table; a stderr containing the
publickey-specific permission-denial phrase yields PermissionDenied (even
though every such stderr also contains the generic phrase, which would
select AuthenticationFailed); a stderr matching no pattern yields
UnknownError carrying the exit code and the stderr verbatim. -/
theorem create_classification_spec (op : SSHCreateSocketOp) (res : ShellResult) (now : String)
    (hne : res.exitCode ≠ 0) :
    (op.run res now =
      match firstMatch res.stderr createClassifierTable with
      | some k => .fail k res.stderr
      | none => .fail .UnknownError ("Exit code " ++ toString res.exitCode ++ ": " ++ res.stderr)) ∧
    (strIncludes res.stderr "Permission denied (publickey" = true →
      op.run res now = .fail .PermissionDenied res.stderr) ∧
    (∀ s : String, strIncludes s "Permission denied (publickey" = true →
      strIncludes s "Permission denied" = true) ∧
    (firstMatch res.stderr createClassifierTable = none →
      op.run res now =
        .fail .UnknownError ("Exit code " ++ toString res.exitCode ++ ": " ++ res.stderr)) := by
  refine ⟨create_run_classified op res now hne, ?_, ?_, ?_⟩
  · intro h
    rw [create_run_classified op res now hne]
    simp [createClassifierTable, firstMatch, entryMatches, h]
  · intro s hs
    exact strIncludes_trans hs (by decide)
  · intro h
    rw [create_run_classified op res now hne, h]

/-- Closed instance of the C1 theorem: a concrete publickey stderr and a
concrete unclassifiable stderr. -/
theorem create_classification_spec_witness :
    SSHCreateSocketOp.run { host := "host" } ⟨255, "", "Permission denied (publickey,password)."⟩ "t"
      = .fail .PermissionDenied "Permission denied (publickey,password)." ∧
    SSHCreateSocketOp.run { host := "host" } ⟨7, "", "mystery"⟩ "t"
      = .fail .UnknownError "Exit code 7: mystery" := by
  constructor
  · exact (create_classification_spec { host := "host" }
      ⟨255, "", "Permission denied (publickey,password)."⟩ "t" (by decide)).2.1 (by decide)
  · exact (create_classification_spec { host := "host" }
      ⟨7, "", "mystery"⟩ "t" (by decide)).2.2.2 (by decide)

/-- C3: TearDown short-circuits to success (false, false) when Exit fails
with SocketNotFound, regardless of the removal outcome; a FileNotFound
removal failure is absorbed as success with fileRemoved false; any other
removal failure becomes RemoveFailed; and on a socket path that was never
created (the file-existence check fails) TearDown succeeds with
(false, false). -/
theorem teardown_spec :
    (∀ (d : String) (r : OpOutcome Bool RemoveSocketFileFailure),
      TearDownSocketOp.run (.fail .SocketNotFound d) r = .succeed ⟨false, false⟩) ∧
    (∀ (b : Bool) (d : String),
      TearDownSocketOp.run (.succeed b) (.fail .FileNotFound d) = .succeed ⟨b, false⟩) ∧
    (∀ d d2 : String,
      TearDownSocketOp.run (.fail .UnknownError d) (.fail .FileNotFound d2) =
        .succeed ⟨false, false⟩) ∧
    (∀ (b : Bool) (d : String),
      TearDownSocketOp.run (.succeed b) (.fail .PermissionDenied d) = .fail .RemoveFailed d) ∧
    (∀ (b : Bool) (d : String),
      TearDownSocketOp.run (.succeed b) (.fail .UnknownError d) = .fail .RemoveFailed d) ∧
    (∀ d d2 : String,
      TearDownSocketOp.run (.fail .UnknownError d) (.fail .PermissionDenied d2) =
        .fail .RemoveFailed d2) ∧
    (∀ (res : ShellResult) (p : String) (r : OpOutcome Bool RemoveSocketFileFailure),
      TearDownSocketOp.run (SSHExitSocketOp.run p false res) r = .succeed ⟨false, false⟩) :=
  ⟨fun _ _ => rfl, fun _ _ => rfl, fun _ _ => rfl, fun _ _ => rfl, fun _ _ => rfl,
    fun _ _ => rfl, fun _ _ _ => rfl⟩

/-- C4: with the socket file present, an ssh exit code of 255 is never a
successful ExecResult but a transport failure drawn from SocketNotFound,
ConnectionFailed, Timeout or SocketDead; when no 255-pattern matches the
default is ConnectionFailed carrying the stderr; any other exit code is a
success carrying that code verbatim with output as text and raw bytes. -/
theorem exec_transport_separation (decode : List Nat → String) (p : String)
    (res : ShellResultBuffers) :
    (res.exitCode = 255 →
      ∃ k d, SSHExecOp.run decode p true res = .fail k d ∧
        (k = .SocketNotFound ∨ k = .ConnectionFailed ∨ k = .Timeout ∨ k = .SocketDead)) ∧
    (res.exitCode = 255 → execPatternMatches (decode res.stderrBuffer) = false →
      SSHExecOp.run decode p true res =
        .fail .ConnectionFailed ("Exit 255: " ++ decode res.stderrBuffer)) ∧
    (res.exitCode ≠ 255 →
      SSHExecOp.run decode p true res =
        .succeed ⟨res.exitCode, decode res.stdoutBuffer, decode res.stderrBuffer,
          res.stdoutBuffer, res.stderrBuffer⟩) := by
  refine ⟨?_, ?_, ?_⟩
  · intro h
    simp only [SSHExecOp.run, if_neg (by decide : ¬(true = false)), if_pos h]
    split_ifs
    exacts [⟨_, _, rfl, Or.inl rfl⟩, ⟨_, _, rfl, Or.inr (Or.inl rfl)⟩,
      ⟨_, _, rfl, Or.inr (Or.inr (Or.inl rfl))⟩, ⟨_, _, rfl, Or.inr (Or.inr (Or.inr rfl))⟩,
      ⟨_, _, rfl, Or.inr (Or.inl rfl)⟩]
  · intro h hnp
    simp only [execPatternMatches, Bool.or_eq_false_iff] at hnp
    obtain ⟨⟨⟨⟨⟨⟨hA, hB⟩, hC⟩, hD⟩, hE⟩, hF⟩, hG⟩ := hnp
    have hG2 : (strIncludes (decode res.stderrBuffer) "Control socket"
        && strIncludes (decode res.stderrBuffer) "dead") = false := hG
    simp [SSHExecOp.run, h, hA, hB, hC, hD, hE, hF, hG2]
  · intro h
    simp [SSHExecOp.run, h]

/-- Closed instance of the C4 theorem: a 255 exit with unclassifiable
stderr, and a nonzero non-255 exit. -/
theorem exec_transport_separation_witness :
    SSHExecOp.run (fun _ => "") "/tmp/s" true ⟨255, [], []⟩ =
      .fail .ConnectionFailed ("Exit 255: " ++ "") ∧
    SSHExecOp.run (fun _ => "") "/tmp/s" true ⟨7, [], []⟩ =
      .succeed ⟨7, "", "", [], []⟩ := by
  constructor
  · exact (exec_transport_separation (fun _ => "") "/tmp/s" ⟨255, [], []⟩).2.1 rfl (by decide)
  · exact (exec_transport_separation (fun _ => "") "/tmp/s" ⟨7, [], []⟩).2.2 (by decide)

/-- C5: Check with an absent socket file fails with SocketNotFound without
depending on any ssh invocation result; with the file present, exit code 0
yields the success value alive, and any nonzero exit yields the success
value dead. -/
theorem check_spec (p : String) :
    (∀ r r' : ShellResult, SSHCheckSocketOp.run p false r = SSHCheckSocketOp.run p false r') ∧
    (∀ r : ShellResult, SSHCheckSocketOp.run p false r =
      .fail .SocketNotFound ("Control socket does not exist: " ++ p)) ∧
    (∀ r : ShellResult, r.exitCode = 0 → SSHCheckSocketOp.run p true r = .succeed .alive) ∧
    (∀ r : ShellResult, r.exitCode ≠ 0 → SSHCheckSocketOp.run p true r = .succeed .dead) := by
  refine ⟨fun r r' => rfl, fun r => rfl, fun r h => ?_, fun r h => ?_⟩
  · simp [SSHCheckSocketOp.run, h]
  · simp [SSHCheckSocketOp.run, h]

/-- Closed instance of the C5 theorem at exit codes 0 and 1. -/
theorem check_spec_witness :
    SSHCheckSocketOp.run "/tmp/s" true ⟨0, "", ""⟩ = .succeed .alive ∧
    SSHCheckSocketOp.run "/tmp/s" true ⟨1, "", ""⟩ = .succeed .dead :=
  ⟨(check_spec "/tmp/s").2.2.1 ⟨0, "", ""⟩ rfl, (check_spec "/tmp/s").2.2.2 ⟨1, "", ""⟩ (by decide)⟩

/-- C6: Exit with an absent socket file fails with SocketNotFound;
otherwise it succeeds with exitedCleanly true exactly when the control
command exited 0, and a nonzero exit is never surfaced as a failure. -/
theorem exit_spec (p : String) :
    (∀ r : ShellResult, SSHExitSocketOp.run p false r =
      .fail .SocketNotFound ("Control socket does not exist: " ++ p)) ∧
    (∀ r : ShellResult, SSHExitSocketOp.run p true r = .succeed (decide (r.exitCode = 0))) ∧
    (∀ (r : ShellResult) (k : SSHExitSocketFailure) (d : String),
      SSHExitSocketOp.run p true r ≠ .fail k d) := by
  refine ⟨fun r => rfl, fun r => rfl, fun r k d h => ?_⟩
  simp only [SSHExitSocketOp.run] at h
  exact OpOutcome.noConfusion h

/-- Closed instance of the C6 theorem at exit codes 0 and 1. -/
theorem exit_spec_witness :
    SSHExitSocketOp.run "/tmp/s" true ⟨0, "", ""⟩ = .succeed (decide ((0 : Int) = 0)) ∧
    SSHExitSocketOp.run "/tmp/s" true ⟨1, "", ""⟩ ≠ .fail .SocketNotFound "x" :=
  ⟨(exit_spec "/tmp/s").2.1 ⟨0, "", ""⟩, (exit_spec "/tmp/s").2.2 ⟨1, "", ""⟩ .SocketNotFound "x"⟩

/-- C7: Validate converts Check's SocketNotFound failure into the success
(valid false, not-found), maps a Check status to (status equals alive,
status), propagates any other Check failure as UnknownError, and every
successful ValidationResult has valid true exactly when status is
alive. -/
theorem validate_spec :
    (∀ d : String,
      ValidateSocketOp.run (.fail .SocketNotFound d) = .succeed ⟨false, .notFound⟩) ∧
    (∀ st : SocketStatus, ValidateSocketOp.run (.succeed st) =
      .succeed ⟨decide (st = .alive), socketStatusToValidation st⟩) ∧
    (∀ d : String, ValidateSocketOp.run (.fail .UnknownError d) = .fail .UnknownError d) ∧
    (∀ (co : OpOutcome SocketStatus SSHCheckSocketFailure) (v : ValidationResult),
      ValidateSocketOp.run co = .succeed v → (v.valid = true ↔ v.status = VStatus.alive)) := by
  refine ⟨fun d => rfl, fun st => rfl, fun d => rfl, ?_⟩
  intro co v h
  cases co with
  | succeed st =>
    simp only [ValidateSocketOp.run] at h
    cases st <;> (injection h with h2; subst h2; decide)
  | fail f d =>
    cases f with
    | SocketNotFound =>
      simp only [ValidateSocketOp.run] at h
      injection h with h2
      subst h2
      decide
    | UnknownError =>
      simp only [ValidateSocketOp.run] at h
      exact OpOutcome.noConfusion h

/-- Closed instance of the C7 invariant at a concrete successful
validation. -/
theorem validate_spec_witness :
    (ValidationResult.mk true .alive).valid = true ↔
      (ValidationResult.mk true .alive).status = VStatus.alive :=
  validate_spec.2.2.2 (.succeed .alive) ⟨true, .alive⟩ (by decide)

/-- C8: both command-execution variants are total functions of the spawn
event (they always resolve to a result, never throwing), and a spawn
failure resolves to exit code 1 with the error message as stderr and empty
stdout. -/
theorem runCommand_never_throws (decode : List Nat → String) :
    (∀ ev : SpawnEvent, ∃ r : ShellResult, runCommand decode ev = r) ∧
    (∀ m : String, runCommand decode (.spawnError m) = ⟨1, "", m⟩) ∧
    (∀ ev : SpawnEvent, ∃ r : ShellResultBuffers, runCommandBuffers ev = r) ∧
    (∀ m : String, runCommandBuffers (.spawnError m) = ⟨1, [], encodeUtf8 m⟩) :=
  ⟨fun _ => ⟨_, rfl⟩, fun _ => rfl, fun _ => ⟨_, rfl⟩, fun _ => rfl⟩

/-- C10: a child process closing with a null exit code is reported as exit
code 1 by both variants, indistinguishably from a genuine exit 1, while
the captured output is still returned. -/
theorem runCommand_null_exit_code (decode : List Nat → String)
    (outChunks errChunks : List (List Nat)) :
    runCommand decode (.close none outChunks errChunks) =
      runCommand decode (.close (some 1) outChunks errChunks) ∧
    (runCommand decode (.close none outChunks errChunks)).exitCode = 1 ∧
    (runCommand decode (.close none outChunks errChunks)).stdout = decode outChunks.flatten ∧
    (runCommand decode (.close none outChunks errChunks)).stderr = decode errChunks.flatten ∧
    runCommandBuffers (.close none outChunks errChunks) =
      runCommandBuffers (.close (some 1) outChunks errChunks) ∧
    (runCommandBuffers (.close none outChunks errChunks)).stdoutBuffer = outChunks.flatten ∧
    (runCommandBuffers (.close none outChunks errChunks)).stderrBuffer = errChunks.flatten :=
  ⟨rfl, rfl, rfl, rfl, rfl, rfl, rfl⟩
